import Mathlib

/-!
Verification development for the aws-serverless-textract-solution pipeline.

The development shallowly embeds the two Lambda handlers of the
job-orchestration core (the Job Submitter on the create-request queue and
the Result Collector on the result queue), the table-extraction helper
`extractTableData`, and the `ApplyTags` CDK aspect constructor.  External
service calls (Textract, SQS, S3) are represented by an explicit trace of
issued calls together with an environment that fixes each call's outcome;
thrown JavaScript errors are represented with `Except`.
-/

namespace Textract

/-! ## Job Submitter (textract-create-request-queue handler)

Externally visible calls issued by the submitter handler: the
StartDocumentAnalysis submission, the SendMessage of the tracking record
to the results queue, and the DeleteMessage acknowledgment of the
triggering notification. -/

inductive SAction where
  | startAnalysis (bucketName objectKey : String)
  | sendTracking (jobId objectKey bucketName : String)
  | deleteMsg (receiptHandle : String)
deriving DecidableEq

/-- Outcome environment for one attempt of the submission body:
the result of the StartDocumentAnalysis call (`Except.ok none` models a
response whose `JobId` is `undefined`), of the tracking-record
SendMessage, and of the DeleteMessage acknowledgment. -/
structure AttemptEnv where
  startResult : Except String (Option String)
  sendResult : Except String Unit
  deleteResult : Except String Unit

/-- One execution of the body passed to `retry` in the submitter handler
(source lines 189-236 of the create-request handler): issue the
StartDocumentAnalysis call; throw if the returned `JobId` is undefined;
send the tracking record `(JobId, ObjectKey, BucketName)` to the results
queue; then delete the triggering message.  Returns the trace of issued
calls and either success or the thrown error. -/
def attemptBody (env : AttemptEnv) (bucketName objectKey receiptHandle : String) :
    List SAction × Except String Unit :=
  match env.startResult with
  | Except.error e => ([SAction.startAnalysis bucketName objectKey], Except.error e)
  | Except.ok none =>
    ([SAction.startAnalysis bucketName objectKey], Except.error "JobId is undefined.")
  | Except.ok (some jobId) =>
    match env.sendResult with
    | Except.error e =>
      ([SAction.startAnalysis bucketName objectKey,
        SAction.sendTracking jobId objectKey bucketName], Except.error e)
    | Except.ok _ =>
      match env.deleteResult with
      | Except.error e =>
        ([SAction.startAnalysis bucketName objectKey,
          SAction.sendTracking jobId objectKey bucketName,
          SAction.deleteMsg receiptHandle], Except.error e)
      | Except.ok _ =>
        ([SAction.startAnalysis bucketName objectKey,
          SAction.sendTracking jobId objectKey bucketName,
          SAction.deleteMsg receiptHandle], Except.ok ())

/-- The `handleError` callback the submitter passes to `retry`
(source lines 238-241): it logs and then throws a new error wrapping the
original one, so it never returns normally.  (The nondeterministic
correlation-id prefix of the real message is omitted.) -/
def handleErrorFn (objectKey bucketName : String) (e : String) : Except String Unit :=
  Except.error ("Error processing S3 object " ++ objectKey ++ " from bucket " ++
    bucketName ++ ": " ++ e)

/-- Model of the `retry` combinator of the external `@lifeomic/attempt`
library, as used with the `maxAttempts` and `handleError` options: run the
body; on success return its value; on error invoke `handleError`, and if
`handleError` itself throws, abort with that error and make no further
attempt (documented library behaviour); otherwise re-attempt while
attempts remain.  `remaining` counts the attempts still allowed after the
current one; traces of successive attempts are concatenated. -/
def retryFrom (body : Nat → List SAction × Except String Unit)
    (handleError : String → Except String Unit) :
    Nat → Nat → List SAction × Except String Unit
  | remaining, attemptNum =>
    match body attemptNum with
    | (tr, Except.ok u) => (tr, Except.ok u)
    | (tr, Except.error e) =>
      match handleError e with
      | Except.error e2 => (tr, Except.error e2)
      | Except.ok _ =>
        match remaining with
        | 0 => (tr, Except.error e)
        | n + 1 =>
          let rest := retryFrom body handleError n (attemptNum + 1)
          (tr ++ rest.1, rest.2)

/-- `retry` with `maxAttempts` total attempts (the submitter configures
`maxAttempts: 3`). -/
def retryRun (body : Nat → List SAction × Except String Unit)
    (handleError : String → Except String Unit) (maxAttempts : Nat) :
    List SAction × Except String Unit :=
  retryFrom body handleError (maxAttempts - 1) 0

/-- One record of the inner S3 event carried in a notification message:
`bucket.name` and `object.key` may each be absent (`undefined`), and
`envs` fixes the outcome environment of each retry attempt for this
record. -/
structure S3EventRecordM where
  bucketName : Option String
  objectKey : Option String
  envs : Nat → AttemptEnv

/-- Processing of one S3 event record by the submitter handler (source
lines 179-246): read bucket name and object key, throw if either is
undefined (this throw is NOT inside the try/catch), otherwise run the
retried submission body; any error escaping `retry` is caught by the
surrounding try/catch and only logged, so it does not propagate. -/
def processS3EventRecord (rec : S3EventRecordM) (receiptHandle : String) :
    List SAction × Except String Unit :=
  match rec.bucketName, rec.objectKey with
  | some b, some k =>
    let r := retryRun (fun n => attemptBody (rec.envs n) b k receiptHandle)
      (handleErrorFn k b) 3
    (r.1, Except.ok ())
  | _, _ => ([], Except.error "bucketName or objectKey is undefined.")

/-- The submitter's loop over the records of one parsed S3 event (source
lines 179-246): records are processed in order; an error thrown by
`processS3EventRecord` (only the undefined bucket/key validation can
throw) propagates and aborts the remaining records. -/
def processS3List (receiptHandle : String) :
    List S3EventRecordM → List SAction × Except String Unit
  | [] => ([], Except.ok ())
  | rec :: rest =>
    let r := processS3EventRecord rec receiptHandle
    match r.2 with
    | Except.error e => (r.1, Except.error e)
    | Except.ok _ =>
      let r2 := processS3List receiptHandle rest
      (r.1 ++ r2.1, r2.2)

/-- Outcome of `JSON.parse` on one SQS record body, as the submitter
handler inspects it (source lines 166-171): the parse may throw
(`invalid`), or yield a value whose `Records` field is not an array
(`noRecords`), or yield an event with a `Records` array. -/
inductive ParsedBody where
  | invalid
  | noRecords
  | records (l : List S3EventRecordM)

/-- One SQS record delivered to the submitter handler, given by the parse
outcome of its body and its receipt handle. -/
structure SQSRecordM where
  body : ParsedBody
  receiptHandle : String

/-- The submitter handler's outer loop over the SQS records of the event
(source lines 164-251): `JSON.parse` throwing on a body aborts the whole
invocation; a parsed body without a `Records` array is only logged and the
loop continues; otherwise the inner S3 event records are processed, any
thrown error propagating. -/
def handlerRun : List SQSRecordM → List SAction × Except String Unit
  | [] => ([], Except.ok ())
  | r :: rest =>
    match r.body with
    | ParsedBody.invalid =>
      ([], Except.error "SyntaxError: Unexpected token in JSON")
    | ParsedBody.noRecords => handlerRun rest
    | ParsedBody.records l =>
      let pr := processS3List r.receiptHandle l
      match pr.2 with
      | Except.error e => (pr.1, Except.error e)
      | Except.ok _ =>
        let r2 := handlerRun rest
        (pr.1 ++ r2.1, r2.2)

def SAction.isSendTracking : SAction → Bool
  | SAction.sendTracking _ _ _ => true
  | _ => false

def SAction.isDeleteMsg : SAction → Bool
  | SAction.deleteMsg _ => true
  | _ => false

def SAction.isStartAnalysis : SAction → Bool
  | SAction.startAnalysis _ _ => true
  | _ => false

/-- Number of tracking-record publishes in a trace. -/
def countSends (tr : List SAction) : Nat :=
  (tr.filter SAction.isSendTracking).length

/-- Number of StartDocumentAnalysis submissions in a trace. -/
def countStarts (tr : List SAction) : Nat :=
  (tr.filter SAction.isStartAnalysis).length

/-- An S3 event record is well formed when both its bucket name and its
object key are present. -/
def wfS3 (x : S3EventRecordM) : Prop :=
  x.bucketName.isSome = true ∧ x.objectKey.isSome = true

/-! ## Table extraction (textract-receive-result handler) -/

/-- A table cell as the response parser exposes it: only its `text`
field is read by the code. -/
structure TCell where
  text : String
deriving DecidableEq

/-- A Textract document table as `extractTableData` consumes it:
`rowCount`, `columnCount`, and the 0-indexed `getCell` accessor, which may
return no cell at a coordinate. -/
structure TTable where
  rowCount : Nat
  columnCount : Nat
  getCell : Nat → Nat → Option TCell

/-- `extractTableData` (source lines 110-130 of the receive-result
handler): for each row index `i < rowCount` build a row object whose
properties, inserted in column order `j = 0 .. columnCount - 1`, are
`Column(j+1)` mapped to the text of cell `(i, j)` when that cell exists
and to the empty string otherwise.  A JavaScript object with string keys
inserted in a fixed order is modelled as an ordered association list. -/
def extractTableData (documentTable : TTable) : List (List (String × String)) :=
  (List.range documentTable.rowCount).map (fun i =>
    (List.range documentTable.columnCount).map (fun j =>
      match documentTable.getCell i j with
      | some cell => ("Column" ++ toString (j + 1), cell.text)
      | none => ("Column" ++ toString (j + 1), "")))

/-! ## Result Collector (textract-receive-result handler) -/

/-- Externally visible write calls issued by the collector: the S3
PutObject of a page's JSON, the SendMessage of the unchanged tracking
record to the quarantine (DLQ) queue, and the DeleteMessage of the
tracking message. -/
inductive CAction where
  | putObject (bucket key body contentType : String)
  | sendDLQ (jobId objectKey bucketName : String)
  | deleteMsg (receiptHandle : String)
deriving DecidableEq

/-- One page of a parsed Textract document: the handler reads only its
`text` (its tables are fed to `extractTableData` purely for logging). -/
structure PageM where
  text : String
deriving DecidableEq

/-- The analysis result returned by GetDocumentAnalysis, as the collector
consumes it: the job status string and the pages of the parsed document. -/
structure AnalysisResultM where
  jobStatus : String
  pages : List PageM

/-- A tracking message received by the collector: the parsed
`{JobId, ObjectKey, BucketName}` body and the SQS receipt handle. -/
structure TrackingMsgM where
  jobId : String
  objectKey : String
  bucketName : String
  receiptHandle : String

/-- Models `JSON.stringify` applied to a JavaScript string: wrap in
double quotes, escaping backslash and double quote (escapes of control
characters are omitted; no claim depends on them). -/
def jsonStringifyStr (s : String) : String :=
  "\"" ++ String.join (s.toList.map (fun c =>
    if c = '\\' then "\\\\" else if c = '\"' then "\\\"" else String.singleton c)) ++ "\""

/-- Processing of one tracking record by the collector handler (source
lines 30-102 of the receive-result handler), given the queried analysis
result.  On `SUCCEEDED`: for each page, in order, issue one PutObject to
the JSON output bucket under the key `objectKey ++ "-documentPage.json"`
with body `JSON.stringify(page.text)` and content type
`application/json`; then issue the DeleteMessage of the tracking message,
whose failure is caught and only logged, so the record still succeeds.
On `FAILED`: issue one SendMessage to the quarantine queue carrying the
unchanged `{JobId, ObjectKey, BucketName}`, with no delete.  On any other
status: throw. -/
def processResultRecord (outBucket : String) (rec : TrackingMsgM)
    (analysis : AnalysisResultM) : List CAction × Except String Unit :=
  if analysis.jobStatus = "SUCCEEDED" then
    (analysis.pages.map (fun p =>
      CAction.putObject outBucket (rec.objectKey ++ "-documentPage.json")
        (jsonStringifyStr p.text) "application/json")
      ++ [CAction.deleteMsg rec.receiptHandle], Except.ok ())
  else if analysis.jobStatus = "FAILED" then
    ([CAction.sendDLQ rec.jobId rec.objectKey rec.bucketName], Except.ok ())
  else
    ([], Except.error ("Textract job " ++ rec.jobId ++ " is not complete."))

/-- The keys of the PutObject calls in a trace, in order. -/
def putKeys (l : List CAction) : List String :=
  l.filterMap (fun a =>
    match a with
    | CAction.putObject _ k _ _ => some k
    | _ => none)

/-- The blob store: a map from (bucket, key) to the stored body. -/
def Store : Type := String × String → Option String

/-- Effect of one collector action on the blob store: a PutObject
overwrites the object at its (bucket, key); queue actions leave the store
unchanged. -/
def applyAction (s : Store) : CAction → Store
  | CAction.putObject b k bod _ => fun p => if p = (b, k) then some bod else s p
  | _ => s

/-- Effect of a trace of collector actions on the blob store, applied in
order. -/
def applyActions (s : Store) (l : List CAction) : Store :=
  l.foldl applyAction s

/-- The body of the last PutObject in the trace that targets the given
(bucket, key), if any. -/
def lastPut : List CAction → String × String → Option String
  | [], _ => none
  | a :: t, p =>
    match lastPut t p with
    | some b => some b
    | none =>
      match a with
      | CAction.putObject bk k bod _ => if p = (bk, k) then some bod else none
      | _ => none

/-! ## ApplyTags aspect constructor -/

/-- The required tag names checked by the `ApplyTags` constructor
(source line 101 of the tagging module). -/
def requiredTags : List String := ["environment", "project", "owner"]

/-- JavaScript falsiness of the string-valued property lookup `tags[tag]`:
`undefined` (absent) and the empty string are falsy; every other string is
truthy. -/
def isFalsy (o : Option String) : Bool :=
  match o with
  | none => true
  | some s => s = ""

/-- The `ApplyTags` constructor (source lines 100-108 of the tagging
module): iterate the required tag names in order and throw
`MissingTagError` — whose message is "Missing required tag: TAG." — at
the first one whose lookup is falsy; otherwise store the full tag set.
A JavaScript string-keyed object is modelled as an association list. -/
def applyTagsCtor (tags : List (String × String)) :
    Except String (List (String × String)) :=
  match requiredTags.find? (fun t => isFalsy (tags.lookup t)) with
  | some t => Except.error ("Missing required tag: " ++ t ++ ".")
  | none => Except.ok tags

/-! ## Concrete instances used by witnesses and counterexamples -/

/-- Attempt environment in which every external call succeeds and the
submission returns job id "job-1". -/
def okEnv : AttemptEnv :=
  ⟨Except.ok (some "job-1"), Except.ok (), Except.ok ()⟩

/-- Attempt environment in which the StartDocumentAnalysis call throws. -/
def failEnv : AttemptEnv :=
  ⟨Except.error "service error", Except.ok (), Except.ok ()⟩

/-- A well-formed S3 event record whose submission environment succeeds on
every attempt. -/
def wRec : S3EventRecordM := ⟨some "bucket-a", some "doc.pdf", fun _ => okEnv⟩

/-- An S3 event record whose submission call fails on attempts 1 and 2 and
would succeed on attempt 3. -/
def c3Rec : S3EventRecordM :=
  ⟨some "bucket-a", some "doc.pdf", fun n => if n ≤ 1 then failEnv else okEnv⟩

/-- A well-formed sibling event (object key "k1"). -/
def ev1 : S3EventRecordM := ⟨some "b1", some "k1", fun _ => okEnv⟩

/-- A malformed event: its object key is undefined. -/
def ev2 : S3EventRecordM := ⟨some "b2", none, fun _ => okEnv⟩

/-- A well-formed sibling event (object key "k3") after the malformed
one. -/
def ev3 : S3EventRecordM := ⟨some "b3", some "k3", fun _ => okEnv⟩

/-- A batch of one notification whose S3 event holds three records, the
second of which is malformed. -/
def c4Batch : List SQSRecordM := [⟨ParsedBody.records [ev1, ev2, ev3], "rh-4"⟩]

/-- A batch of one record whose body parses to JSON without a `Records`
array. -/
def c9Batch : List SQSRecordM := [⟨ParsedBody.noRecords, "rh-9"⟩]

/-- The table of the specification's worked example: 2 rows, 3 columns,
cell (0, 1) missing. -/
def specTable : TTable :=
  ⟨2, 3, fun i j =>
    match i, j with
    | 0, 0 => some ⟨"A"⟩
    | 0, 1 => none
    | 0, 2 => some ⟨"B"⟩
    | 1, 0 => some ⟨"C"⟩
    | 1, 1 => some ⟨"D"⟩
    | 1, 2 => some ⟨"E"⟩
    | _, _ => none⟩

/-- A tracking record for a two-page document. -/
def c5Rec : TrackingMsgM := ⟨"job-5", "doc.pdf", "in-bucket", "rh-5"⟩

/-- A SUCCEEDED analysis result with two pages. -/
def c5Analysis : AnalysisResultM :=
  ⟨"SUCCEEDED", [⟨"page one text"⟩, ⟨"page two text"⟩]⟩

/-- A tracking record used for the idempotence witness. -/
def c8Rec : TrackingMsgM := ⟨"job-8", "report.pdf", "in-bucket", "rh-8"⟩

/-- A SUCCEEDED analysis result used for the idempotence witness. -/
def c8Analysis : AnalysisResultM := ⟨"SUCCEEDED", [⟨"hello"⟩]⟩

/-- A FAILED analysis result. -/
def c6Analysis : AnalysisResultM := ⟨"FAILED", [⟨"ignored"⟩]⟩

/-- A tracking record whose job failed. -/
def c6Rec : TrackingMsgM := ⟨"job-6", "bad.pdf", "in-bucket", "rh-6"⟩

/-- An analysis result still in progress. -/
def c7Analysis : AnalysisResultM := ⟨"IN_PROGRESS", [⟨"partial"⟩]⟩

/-- A tracking record whose job is still in progress. -/
def c7Rec : TrackingMsgM := ⟨"job-7", "slow.pdf", "in-bucket", "rh-7"⟩

/-- The empty blob store. -/
def emptyStore : Store := fun _ => none

/-- A tag set carrying all three required tags with non-empty values. -/
def goodTags : List (String × String) :=
  [("environment", "production"), ("project", "textract"), ("owner", "data-team")]

/-! ## Helper lemmas -/

/-- Because the submitter's `handleError` always throws, processing a
well-formed event runs the submission body exactly once — its trace is
attempt 0's trace — and the surrounding try/catch swallows any error. -/
theorem processS3EventRecord_eq (rec : S3EventRecordM) (rh b k : String)
    (hb : rec.bucketName = some b) (hk : rec.objectKey = some k) :
    processS3EventRecord rec rh =
      ((attemptBody (rec.envs 0) b k rh).1, Except.ok ()) := by
  simp only [processS3EventRecord, hb, hk]
  rcases h0 : attemptBody (rec.envs 0) b k rh with ⟨tr, res⟩
  cases res with
  | ok u => simp [retryRun, retryFrom, h0]
  | error e => simp [retryRun, retryFrom, h0, handleErrorFn]

/-- Processing a well-formed event never throws: the try/catch confines
every submission failure to the event. -/
theorem processS3EventRecord_ok (rh : String) {x : S3EventRecordM} (h : wfS3 x) :
    (processS3EventRecord x rh).2 = Except.ok () := by
  obtain ⟨b, hb⟩ := Option.isSome_iff_exists.mp h.1
  obtain ⟨k, hk⟩ := Option.isSome_iff_exists.mp h.2
  rw [processS3EventRecord_eq x rh b k hb hk]

/-- An event lacking its bucket name or its object key throws before
reaching the try block, issuing no external call. -/
theorem processS3EventRecord_malformed (rh : String) {r : S3EventRecordM}
    (hr : r.bucketName = none ∨ r.objectKey = none) :
    processS3EventRecord r rh =
      ([], Except.error "bucketName or objectKey is undefined.") := by
  rcases hO : r.bucketName with _ | b <;> rcases hK : r.objectKey with _ | k
  · simp [processS3EventRecord, hO, hK]
  · simp [processS3EventRecord, hO, hK]
  · simp [processS3EventRecord, hO, hK]
  · rcases hr with h | h
    · rw [hO] at h
      exact absurd h (by simp)
    · rw [hK] at h
      exact absurd h (by simp)

/-- A trace containing no delete admits no decomposition exposing a
delete. -/
theorem decompNoDelete {tr : List SAction} (h : ∀ a ∈ tr, a.isDeleteMsg = false)
    (l1 : List SAction) (a : SAction) (l2 : List SAction)
    (htr : tr = l1 ++ a :: l2) (ha : a.isDeleteMsg = true) : False := by
  have hmem : a ∈ tr := by
    rw [htr]; exact List.mem_append_right _ (List.mem_cons_self a l2)
  rw [h a hmem] at ha
  exact Bool.false_ne_true ha

/-- In a three-element trace whose only delete is the last element and
whose middle element is a send, any decomposition exposing a delete has a
send strictly before it. -/
theorem decomp3 {x y z : SAction} (hx : x.isDeleteMsg = false)
    (hy : y.isSendTracking = true) (hyd : y.isDeleteMsg = false) :
    ∀ l1 (a : SAction) l2, [x, y, z] = l1 ++ a :: l2 → a.isDeleteMsg = true →
      ∃ s ∈ l1, s.isSendTracking = true := by
  intro l1 a l2 h ha
  rcases l1 with _ | ⟨u, _ | ⟨v, _ | ⟨w, rest⟩⟩⟩
  · simp only [List.nil_append, List.cons.injEq] at h
    rw [← h.1] at ha
    rw [hx] at ha
    exact absurd ha Bool.false_ne_true
  · simp only [List.cons_append, List.nil_append, List.cons.injEq] at h
    rw [← h.2.1] at ha
    rw [hyd] at ha
    exact absurd ha Bool.false_ne_true
  · refine ⟨y, ?_, hy⟩
    simp only [List.cons_append, List.nil_append, List.cons.injEq] at h
    rw [h.2.1]
    simp
  · exfalso
    simp only [List.cons_append, List.cons.injEq] at h
    have := h.2.2.2
    exact absurd this.symm (by simp)

/-! ## Claim theorems -/

/-- Claim C1: for every notification event the Job Submitter processes,
whenever the acknowledging DeleteMessage appears in the trace of issued
calls, a SendMessage of the TrackingRecord appears strictly before it,
and the tracking-record publish of the (single) attempt completed
successfully — the delete is never issued unless the tracking-record
publish has completed. -/
theorem submitter_send_before_delete (rec : S3EventRecordM) (rh b k : String)
    (hb : rec.bucketName = some b) (hk : rec.objectKey = some k)
    (l1 : List SAction) (a : SAction) (l2 : List SAction)
    (htr : (processS3EventRecord rec rh).1 = l1 ++ a :: l2)
    (ha : a.isDeleteMsg = true) :
    (∃ s ∈ l1, s.isSendTracking = true) ∧ (rec.envs 0).sendResult = Except.ok () := by
  rw [processS3EventRecord_eq rec rh b k hb hk] at htr
  simp only at htr
  rcases henv : rec.envs 0 with ⟨sr, sd, dl⟩
  rw [henv] at htr
  rcases sr with e | _ | jid
  · rw [attemptBody] at htr
    exact absurd (decompNoDelete (by intro a2 ha2; simp at ha2; rw [ha2]; rfl)
      l1 a l2 htr ha) id
  · rw [attemptBody] at htr
    exact absurd (decompNoDelete (by intro a2 ha2; simp at ha2; rw [ha2]; rfl)
      l1 a l2 htr ha) id
  · rcases sd with e | u
    · rw [attemptBody] at htr
      refine absurd (decompNoDelete ?_ l1 a l2 htr ha) id
      intro a2 ha2
      simp only [List.mem_cons, List.not_mem_nil, or_false] at ha2
      rcases ha2 with h2 | h2 <;> rw [h2] <;> rfl
    · cases u
      refine ⟨?_, rfl⟩
      rcases dl with e | u2
      · rw [attemptBody] at htr
        exact decomp3 (x := SAction.startAnalysis b k)
          (y := SAction.sendTracking jid k b) (z := SAction.deleteMsg rh)
          rfl rfl rfl l1 a l2 htr ha
      · rw [attemptBody] at htr
        exact decomp3 (x := SAction.startAnalysis b k)
          (y := SAction.sendTracking jid k b) (z := SAction.deleteMsg rh)
          rfl rfl rfl l1 a l2 htr ha

/-- Witness for C1: on a fully successful event, the delete in the trace
is preceded by the tracking-record send, whose publish succeeded. -/
theorem submitter_send_before_delete_witness :
    (∃ s ∈ ([SAction.startAnalysis "bucket-a" "doc.pdf",
             SAction.sendTracking "job-1" "doc.pdf" "bucket-a"] : List SAction),
      s.isSendTracking = true) ∧ (wRec.envs 0).sendResult = Except.ok () :=
  submitter_send_before_delete wRec "rh-1" "bucket-a" "doc.pdf" rfl rfl
    [SAction.startAnalysis "bucket-a" "doc.pdf",
     SAction.sendTracking "job-1" "doc.pdf" "bucket-a"]
    (SAction.deleteMsg "rh-1") [] rfl rfl

/-- Counterexample to C3: on an event whose submission call fails on
attempts 1 and 2 and would succeed on attempt 3, the handler publishes
zero TrackingRecords (not exactly one) and issues only a single
StartDocumentAnalysis call — the retry never reaches a second attempt,
because the configured `handleError` rethrows, which aborts
`@lifeomic/attempt`. -/
theorem submitter_retry_counterexample :
    countSends (processS3EventRecord c3Rec "rh-1").1 = 0 ∧
    countStarts (processS3EventRecord c3Rec "rh-1").1 = 1 := by
  constructor <;> rfl

/-- Claim C3 (amended): the retry is configured with `maxAttempts` 3, but
its `handleError` rethrows, which aborts the retry at the first failure;
so the submission body runs exactly once — the event's trace is attempt
0's trace — a failing submission call publishes no TrackingRecord, and an
attempt whose submission and publish succeed publishes exactly one. -/
theorem submitter_single_attempt (rec : S3EventRecordM) (rh b k : String)
    (hb : rec.bucketName = some b) (hk : rec.objectKey = some k) :
    (processS3EventRecord rec rh).1 = (attemptBody (rec.envs 0) b k rh).1 ∧
    (∀ e, (rec.envs 0).startResult = Except.error e →
      countSends (processS3EventRecord rec rh).1 = 0) ∧
    (∀ jid, (rec.envs 0).startResult = Except.ok (some jid) →
      (rec.envs 0).sendResult = Except.ok () →
      countSends (processS3EventRecord rec rh).1 = 1) := by
  have heq := processS3EventRecord_eq rec rh b k hb hk
  refine ⟨by rw [heq], ?_, ?_⟩
  · intro e he
    rw [heq]
    simp [attemptBody, he, countSends, SAction.isSendTracking]
  · intro jid hs hsend
    rw [heq]
    rcases hd : (rec.envs 0).deleteResult with e | u <;>
      simp [attemptBody, hs, hsend, hd, countSends, SAction.isSendTracking]

/-- Witness for the amended C3: a fully successful single attempt
publishes exactly one TrackingRecord. -/
theorem submitter_single_attempt_witness :
    countSends (processS3EventRecord wRec "rh-1").1 = 1 :=
  (submitter_single_attempt wRec "rh-1" "bucket-a" "doc.pdf" rfl rfl).2.2
    "job-1" rfl rfl

/-- Counterexample to C4: in a batch of three events whose second lacks
its object key, the handler throws (the validation throw is outside the
try/catch), event 1 alone is processed, and event 3 — sibling of the
malformed event — is never submitted. -/
theorem submitter_batch_counterexample :
    handlerRun c4Batch =
      ([SAction.startAnalysis "b1" "k1", SAction.sendTracking "job-1" "k1" "b1",
        SAction.deleteMsg "rh-4"],
       Except.error "bucketName or objectKey is undefined.") ∧
    ∀ a ∈ (handlerRun c4Batch).1, a ≠ SAction.startAnalysis "b3" "k3" := by
  refine ⟨rfl, ?_⟩
  decide

/-- Claim C4 (amended): an event lacking its bucket name or object key
throws an error that escapes the per-event try/catch and aborts the whole
handler invocation: all events before the first malformed one are still
processed (their submission failures isolated per event), but no event
after it is processed or acknowledged. -/
theorem submitter_malformed_aborts_batch (rh : String) (l1 : List S3EventRecordM)
    (r : S3EventRecordM) (l2 : List S3EventRecordM)
    (h1 : ∀ x ∈ l1, wfS3 x) (hr : r.bucketName = none ∨ r.objectKey = none) :
    processS3List rh (l1 ++ r :: l2) =
      ((processS3List rh l1).1, Except.error "bucketName or objectKey is undefined.") ∧
    (processS3List rh l1).2 = Except.ok () := by
  induction l1 with
  | nil =>
    refine ⟨?_, rfl⟩
    simp only [List.nil_append, processS3List, processS3EventRecord_malformed rh hr]
  | cons x t ih =>
    obtain ⟨ihl, ihr⟩ := ih (fun y hy => h1 y (List.mem_cons_of_mem x hy))
    have hx : (processS3EventRecord x rh).2 = Except.ok () :=
      processS3EventRecord_ok rh (h1 x (List.mem_cons_self x t))
    constructor
    · simp only [List.cons_append, processS3List, hx, List.append_eq, ihl]
    · simp only [processS3List, hx, ihr]

/-- Witness for the amended C4: with events 1 and 2 well formed... -/
theorem submitter_malformed_aborts_batch_witness :
    processS3List "rh-4" [ev1, ev2, ev3] =
      ((processS3List "rh-4" [ev1]).1,
        Except.error "bucketName or objectKey is undefined.") :=
  (submitter_malformed_aborts_batch "rh-4" [ev1] ev2 [ev3]
    (by intro x hx; simp only [List.mem_singleton] at hx; subst hx; exact ⟨rfl, rfl⟩)
    (Or.inr rfl)).1

/-- Counterexample to C9: a batch whose single record's body parses to
JSON without a `Records` array completes without error — the record is
silently skipped, not redelivered. -/
theorem submitter_envelope_counterexample :
    handlerRun c9Batch = ([], Except.ok ()) := rfl

/-- Claim C9 (amended): a record whose body is not valid JSON makes
`JSON.parse` throw, failing the whole batch with no further record
processed; but a record whose body parses to a value without a `Records`
array is only logged and skipped, and processing continues with its
siblings — no error propagates for it. -/
theorem submitter_envelope_behaviour (r : SQSRecordM) (rest : List SQSRecordM) :
    (r.body = ParsedBody.invalid →
      handlerRun (r :: rest) =
        ([], Except.error "SyntaxError: Unexpected token in JSON")) ∧
    (r.body = ParsedBody.noRecords → handlerRun (r :: rest) = handlerRun rest) := by
  constructor <;> intro h <;> simp only [handlerRun, h]

/-- Witness for the amended C9: the skipped-record case on a concrete
batch. -/
theorem submitter_envelope_behaviour_witness :
    handlerRun c9Batch = handlerRun [] :=
  (submitter_envelope_behaviour ⟨ParsedBody.noRecords, "rh-9"⟩ []).2 rfl

/-- Claim C2: for a table with R rows and C columns, `extractTableData`
returns exactly R row objects; each row object has exactly C properties,
which are, in column order, `Column(j+1)` mapped to the text of the
0-indexed cell (i, j) when it exists and to the empty string when it does
not — a key is never omitted. -/
theorem extractTableData_spec (t : TTable) :
    (extractTableData t).length = t.rowCount ∧
    ∀ i (hi : i < (extractTableData t).length),
      ((extractTableData t)[i]).length = t.columnCount ∧
      ∀ j (hj : j < ((extractTableData t)[i]).length),
        ((extractTableData t)[i])[j] =
          ("Column" ++ toString (j + 1), ((t.getCell i j).map TCell.text).getD "") := by
  refine ⟨by simp [extractTableData], fun i hi => ⟨by simp [extractTableData], ?_⟩⟩
  intro j hj
  simp only [extractTableData, List.getElem_map, List.getElem_range]
  cases hc : t.getCell i j <;> simp [hc]

/-- Witness for C2, at the specification's worked example (2 rows,
3 columns, cell (0, 1) missing): the first row's second property is
`Column2` mapped to the empty string. -/
theorem extractTableData_spec_witness :
    (extractTableData specTable).length = 2 ∧
    ((extractTableData specTable).get ⟨0, by decide⟩).get ⟨1, by decide⟩ =
      ("Column2", "") := by
  refine ⟨(extractTableData_spec specTable).1, ?_⟩
  exact ((extractTableData_spec specTable).2 0 (by decide)).2 1 (by decide)

/-- Counterexample to C5: for a SUCCEEDED tracking record of a two-page
document, the collector writes both pages to the single key
"doc.pdf-documentPage.json", so only one distinct output object exists
after processing — holding the last page's text — not one per page. -/
theorem collector_pages_counterexample :
    c5Analysis.pages.length = 2 ∧
    (putKeys (processResultRecord "out-bucket" c5Rec c5Analysis).1).dedup.length = 1 ∧
    applyActions emptyStore (processResultRecord "out-bucket" c5Rec c5Analysis).1
      ("out-bucket", "doc.pdf-documentPage.json") =
        some (jsonStringifyStr "page two text") := by
  refine ⟨rfl, by decide, rfl⟩

/-- Claim C5 (amended): for every tracking record whose queried status is
SUCCEEDED, the collector issues exactly one PutObject per page, each with
content type `application/json`, but every one of them targets the single
key `{objectKey}-documentPage.json` (no page component), so the key list
is `pages.length` copies of that one key and at most one distinct output
object results per record. -/
theorem collector_put_per_page (outBucket : String) (rec : TrackingMsgM)
    (analysis : AnalysisResultM) (h : analysis.jobStatus = "SUCCEEDED") :
    putKeys (processResultRecord outBucket rec analysis).1 =
      List.replicate analysis.pages.length (rec.objectKey ++ "-documentPage.json") ∧
    ∀ b k bod ct,
      CAction.putObject b k bod ct ∈ (processResultRecord outBucket rec analysis).1 →
        b = outBucket ∧ k = rec.objectKey ++ "-documentPage.json" ∧
          ct = "application/json" := by
  constructor
  · simp only [processResultRecord, h, if_pos, if_true, reduceIte]
    induction analysis.pages with
    | nil => rfl
    | cons p ps ih =>
      simpa [putKeys, List.filterMap_cons, List.replicate_succ] using ih
  · intro b k bod ct hmem
    simp only [processResultRecord, h, reduceIte, List.mem_append, List.mem_map,
      List.mem_singleton] at hmem
    rcases hmem with ⟨p, _, hp⟩ | hp
    · obtain ⟨h1, h2, h3, h4⟩ := CAction.putObject.inj hp
      exact ⟨h1.symm, h2.symm, h4.symm⟩
    · exact absurd hp (by simp)

/-- Witness for the amended C5: on the two-page example the put keys are
two copies of "doc.pdf-documentPage.json". -/
theorem collector_put_per_page_witness :
    putKeys (processResultRecord "out-bucket" c5Rec c5Analysis).1 =
      List.replicate 2 "doc.pdf-documentPage.json" :=
  (collector_put_per_page "out-bucket" c5Rec c5Analysis rfl).1

/-- Claim C6: for every tracking record whose queried status is FAILED,
the collector issues exactly one quarantine-queue send, whose body carries
the unchanged JobId, ObjectKey and BucketName of the inbound record, and
issues no delete of the tracking message in this path. -/
theorem collector_failed_to_quarantine (outBucket : String) (rec : TrackingMsgM)
    (analysis : AnalysisResultM) (h : analysis.jobStatus = "FAILED") :
    (processResultRecord outBucket rec analysis).1 =
      [CAction.sendDLQ rec.jobId rec.objectKey rec.bucketName] ∧
    ∀ rh, CAction.deleteMsg rh ∉ (processResultRecord outBucket rec analysis).1 := by
  have hne : analysis.jobStatus ≠ "SUCCEEDED" := by rw [h]; decide
  refine ⟨by simp [processResultRecord, h, hne], ?_⟩
  intro rh
  simp [processResultRecord, h, hne]

/-- Witness for C6: the concrete FAILED record is forwarded unchanged. -/
theorem collector_failed_to_quarantine_witness :
    (processResultRecord "out" c6Rec c6Analysis).1 =
      [CAction.sendDLQ "job-6" "bad.pdf" "in-bucket"] :=
  (collector_failed_to_quarantine "out" c6Rec c6Analysis rfl).1

/-- Claim C7: for every tracking record whose queried status is neither
SUCCEEDED nor FAILED, the collector throws (so the message will be
redelivered) and issues no put, no quarantine send and no delete for that
record. -/
theorem collector_other_status (outBucket : String) (rec : TrackingMsgM)
    (analysis : AnalysisResultM) (h1 : analysis.jobStatus ≠ "SUCCEEDED")
    (h2 : analysis.jobStatus ≠ "FAILED") :
    processResultRecord outBucket rec analysis =
      ([], Except.error ("Textract job " ++ rec.jobId ++ " is not complete.")) := by
  simp [processResultRecord, h1, h2]

/-- Witness for C7: an IN_PROGRESS record produces no action and an
error. -/
theorem collector_other_status_witness :
    processResultRecord "out" c7Rec c7Analysis =
      ([], Except.error "Textract job job-7 is not complete.") :=
  collector_other_status "out" c7Rec c7Analysis (by decide) (by decide)

/-- The store resulting from a trace maps each location to the body of
the trace's last put at that location, or to its previous content when
the trace never puts there. -/
theorem applyActions_lastPut (l : List CAction) (s : Store) (p : String × String) :
    applyActions s l p =
      match lastPut l p with
      | some bod => some bod
      | none => s p := by
  induction l generalizing s with
  | nil => rfl
  | cons a t ih =>
    show applyActions (applyAction s a) t p = _
    rw [ih]
    cases hl : lastPut t p with
    | some bod => simp [lastPut, hl]
    | none =>
      simp only [lastPut, hl]
      cases a with
      | putObject bk k bod ct =>
        by_cases hp : p = (bk, k) <;> simp [applyAction, hp]
      | sendDLQ j o bn => simp [applyAction]
      | deleteMsg rh => simp [applyAction]

/-- Replaying a trace of collector actions over the store it already
produced leaves the store unchanged: every put re-writes the value the
store already holds at its key. -/
theorem applyActions_idem (s : Store) (l : List CAction) :
    applyActions (applyActions s l) l = applyActions s l := by
  funext p
  rw [applyActions_lastPut, applyActions_lastPut]
  cases lastPut l p <;> rfl

/-- Claim C8: processing a SUCCEEDED tracking record a second time against
the same analysis result leaves the blob store unchanged: the re-run is
the same pure function of the record and result, so it issues the same
puts with byte-identical bodies to the same keys, and replaying them over
the already-updated store is the identity (persistence is idempotent by
key overwrite). -/
theorem collector_reprocess_idempotent (outBucket : String) (rec : TrackingMsgM)
    (analysis : AnalysisResultM) (s : Store)
    (h : analysis.jobStatus = "SUCCEEDED") :
    applyActions (applyActions s (processResultRecord outBucket rec analysis).1)
        (processResultRecord outBucket rec analysis).1 =
      applyActions s (processResultRecord outBucket rec analysis).1 := by
  have _hstatus := h
  exact applyActions_idem s (processResultRecord outBucket rec analysis).1

/-- Witness for C8: replaying the one-page SUCCEEDED record over the
store it produced changes nothing. -/
theorem collector_reprocess_idempotent_witness :
    applyActions (applyActions emptyStore (processResultRecord "out" c8Rec c8Analysis).1)
        (processResultRecord "out" c8Rec c8Analysis).1 =
      applyActions emptyStore (processResultRecord "out" c8Rec c8Analysis).1 :=
  collector_reprocess_idempotent "out" c8Rec c8Analysis emptyStore rfl

/-- Claim C10: the `ApplyTags` constructor throws a `MissingTagError`
naming an offending tag whenever one of the required tags `environment`,
`project` or `owner` is absent or empty in its argument, and otherwise
constructs successfully, storing the full tag set. -/
theorem applyTagsCtor_spec (tags : List (String × String)) :
    ((∃ t ∈ requiredTags, isFalsy (tags.lookup t) = true) →
      ∃ t ∈ requiredTags, isFalsy (tags.lookup t) = true ∧
        applyTagsCtor tags = Except.error ("Missing required tag: " ++ t ++ ".")) ∧
    ((∀ t ∈ requiredTags, isFalsy (tags.lookup t) = false) →
      applyTagsCtor tags = Except.ok tags) := by
  constructor
  · intro hex
    cases hfind : requiredTags.find? (fun t => isFalsy (tags.lookup t)) with
    | none =>
      obtain ⟨t, ht, hf⟩ := hex
      have hnone := List.find?_eq_none.mp hfind t ht
      simp [hf] at hnone
    | some t =>
      have hmem : t ∈ requiredTags := List.mem_of_find?_eq_some hfind
      have hp := List.find?_some hfind
      refine ⟨t, hmem, hp, ?_⟩
      simp [applyTagsCtor, hfind]
  · intro hall
    have hfind : requiredTags.find? (fun t => isFalsy (tags.lookup t)) = none := by
      refine List.find?_eq_none.mpr fun x hx => ?_
      simp [hall x hx]
    simp [applyTagsCtor, hfind]

/-- Witness for C10: a tag set with all three required tags present and
non-empty constructs successfully and stores the full set. -/
theorem applyTagsCtor_spec_witness :
    applyTagsCtor goodTags = Except.ok goodTags :=
  (applyTagsCtor_spec goodTags).2 (by decide)

end Textract
